import Mathlib

/-!
Shallow embedding of `dashboard.py`, the single-script e-commerce sales
dashboard.  A pandas DataFrame is modelled as a `List` of row structures;
each pipeline step of the script (preprocess, year filter, KPI computation,
top-10 aggregations, monthly trend) is a Lean function over those lists.
Numeric revenue values are modelled as rationals, timestamps as an optional
parsed calendar value (`none` models pandas `NaT`).
-/

namespace Dashboard

/-- A parsed calendar timestamp, the model of a pandas `datetime64` value. -/
structure DateTime where
  year : Nat
  month : Nat
  day : Nat
  hour : Nat
  minute : Nat
  second : Nat
deriving DecidableEq

/-- One raw CSV record of `main_data.csv`, before `preprocess_data` runs.
Zip columns arrive as the string rendering produced by `astype(str)`; the
field `customer_zip_code` models the column `customer_zip_code_prefix` and
`seller_zip_code` models `seller_zip_code_prefix` (the column names are
shortened, nothing else changes).  Date columns arrive as unparsed text. -/
structure RawRow where
  customer_id : String := ""
  customer_zip_code : String := ""
  customer_state : String := ""
  seller_zip_code : String := ""
  order_id : String := ""
  order_item_id : String := ""
  order_status : String := ""
  order_purchase_timestamp : String := ""
  order_approved_at : String := ""
  order_delivered_carrier_date : String := ""
  order_delivered_customer_date : String := ""
  order_estimated_delivery_date : String := ""
  product_category_name_english : String := ""
  total_revenue : ℚ := 0
  order_purchase_year : Int := 0
deriving DecidableEq

/-- One cleaned record, after `preprocess_data`.  The five date columns are
parsed (`none` models `NaT`); `year_month` models the `year_month` column
that the script adds later — `none` until the monthly-trend step sets it
(the value stored is the month ordinal of the purchase timestamp, the model
of a pandas monthly `Period`). -/
structure Row where
  customer_id : String := ""
  customer_zip_code : String := ""
  customer_state : String := ""
  seller_zip_code : String := ""
  order_id : String := ""
  order_item_id : String := ""
  order_status : String := ""
  order_purchase_timestamp : Option DateTime := none
  order_approved_at : Option DateTime := none
  order_delivered_carrier_date : Option DateTime := none
  order_delivered_customer_date : Option DateTime := none
  order_estimated_delivery_date : Option DateTime := none
  product_category_name_english : String := ""
  total_revenue : ℚ := 0
  order_purchase_year : Int := 0
  year_month : Option Nat := none
deriving DecidableEq

/-! ## Zero padding: `str.zfill(5)` -/

/-- Python `str.zfill(width)` on a list of characters: if the string already
has at least `width` characters it is returned unchanged; otherwise it is
left-padded with `'0'`, the padding going after a leading sign character. -/
def zfillList (width : Nat) (l : List Char) : List Char :=
  match l with
  | [] => List.replicate width '0'
  | c :: rest =>
    if width ≤ rest.length + 1 then c :: rest
    else if c = '+' ∨ c = '-' then c :: (List.replicate (width - (rest.length + 1)) '0' ++ rest)
    else List.replicate (width - (rest.length + 1)) '0' ++ (c :: rest)

/-- Python `str.zfill(width)` on a string. -/
def zfill (width : Nat) (s : String) : String := String.mk (zfillList width s.data)

/-- The helper `fix_prefix` of `preprocess_data`:
`data.astype(str).str.zfill(5)` applied to one cell (the cell is already in
its string rendering here). -/
def fixZip (s : String) : String := zfill 5 s

theorem zfillList_length (width : Nat) (l : List Char) :
    (zfillList width l).length = max width l.length := by
  rcases l with _ | ⟨c, rest⟩
  · simp [zfillList]
  · simp only [zfillList]
    split_ifs <;> simp <;> omega

theorem zfillList_of_le (width : Nat) (l : List Char) (h : width ≤ l.length) :
    zfillList width l = l := by
  rcases l with _ | ⟨c, rest⟩
  · simp at h
    simp [zfillList, h]
  · simp only [List.length_cons] at h
    simp [zfillList, h]

theorem zfill_length (width : Nat) (s : String) :
    (zfill width s).length = max width s.length :=
  zfillList_length width s.data

/-! ## Date parsing: `pd.to_datetime(column, errors="coerce")`

The parser models `pandas.to_datetime` with `errors="coerce"` on the
dataset's timestamp format `YYYY-MM-DD HH:MM:SS`: a cell that parses yields
a calendar-valid datetime, any other cell yields `none` (pandas `NaT`), and
no input raises. -/

def digitVal (c : Char) : Nat := c.toNat - 48

def parseNatDigits (l : List Char) : Option Nat :=
  if l ≠ [] ∧ l.all Char.isDigit then
    some (l.foldl (fun a c => 10 * a + digitVal c) 0)
  else none

/-- Number of days of month `m` of year `y` (Gregorian rules). -/
def daysInMonth (y m : Nat) : Nat :=
  if m = 2 then (if (y % 4 = 0 ∧ y % 100 ≠ 0) ∨ y % 400 = 0 then 29 else 28)
  else if m = 4 ∨ m = 6 ∨ m = 9 ∨ m = 11 then 30
  else 31

/-- A structurally valid calendar timestamp. -/
def ValidDateTime (d : DateTime) : Prop :=
  1 ≤ d.month ∧ d.month ≤ 12 ∧ 1 ≤ d.day ∧ d.day ≤ daysInMonth d.year d.month ∧
    d.hour ≤ 23 ∧ d.minute ≤ 59 ∧ d.second ≤ 59

instance (d : DateTime) : Decidable (ValidDateTime d) := by
  unfold ValidDateTime; infer_instance

def mkDateTime (ys ms ds hs ns ss : List Char) : Option DateTime :=
  (parseNatDigits ys).bind fun y =>
    (parseNatDigits ms).bind fun mo =>
      (parseNatDigits ds).bind fun d =>
        (parseNatDigits hs).bind fun h =>
          (parseNatDigits ns).bind fun mi =>
            (parseNatDigits ss).bind fun se =>
              let dt : DateTime := ⟨y, mo, d, h, mi, se⟩
              if ValidDateTime dt then some dt else none

def parseDateTime (s : String) : Option DateTime :=
  match s.data with
  | [y1, y2, y3, y4, c1, m1, m2, c2, d1, d2, c3, h1, h2, c4, n1, n2, c5, s1, s2] =>
    if c1 = '-' ∧ c2 = '-' ∧ c3 = ' ' ∧ c4 = ':' ∧ c5 = ':' then
      mkDateTime [y1, y2, y3, y4] [m1, m2] [d1, d2] [h1, h2] [n1, n2] [s1, s2]
    else none
  | _ => none

theorem mkDateTime_valid (ys ms ds hs ns ss : List Char) (dt : DateTime)
    (h : mkDateTime ys ms ds hs ns ss = some dt) : ValidDateTime dt := by
  unfold mkDateTime at h
  simp only [Option.bind_eq_some] at h
  obtain ⟨y, -, mo, -, d, -, hh, -, mi, -, se, -, h⟩ := h
  split at h
  · cases h; assumption
  · cases h

theorem parseDateTime_valid (s : String) (dt : DateTime)
    (h : parseDateTime s = some dt) : ValidDateTime dt := by
  unfold parseDateTime at h
  split at h
  · split at h
    · exact mkDateTime_valid _ _ _ _ _ _ _ h
    · cases h
  · cases h

/-! ## `preprocess_data` -/

/-- The column transforms of `preprocess_data` applied to one record:
zero-pad both zip columns with `fix_prefix`, keep `order_item_id` as a
string (`astype(str)`), parse the five date columns with coercion, and copy
every other column unchanged. -/
def cleanRow (raw : RawRow) : Row :=
  { customer_id := raw.customer_id
    customer_zip_code := fixZip raw.customer_zip_code
    customer_state := raw.customer_state
    seller_zip_code := fixZip raw.seller_zip_code
    order_id := raw.order_id
    order_item_id := raw.order_item_id
    order_status := raw.order_status
    order_purchase_timestamp := parseDateTime raw.order_purchase_timestamp
    order_approved_at := parseDateTime raw.order_approved_at
    order_delivered_carrier_date := parseDateTime raw.order_delivered_carrier_date
    order_delivered_customer_date := parseDateTime raw.order_delivered_customer_date
    order_estimated_delivery_date := parseDateTime raw.order_estimated_delivery_date
    product_category_name_english := raw.product_category_name_english
    total_revenue := raw.total_revenue
    order_purchase_year := raw.order_purchase_year
    year_month := none }

/-- `preprocess_data`: apply the column transforms, then
`df.query("order_status == 'delivered'", inplace=True)`. -/
def preprocess_data (t : List RawRow) : List Row :=
  (t.map cleanRow).filter (fun r => r.order_status = "delivered")

/-! ## Year filter

`filtered_data = data[data["order_purchase_year"].isin(years)]`, where
`years` is the sidebar multiselect whose options and default are
`data["order_purchase_year"].unique()`. -/

/-- The boolean-mask filter on the selected years. -/
def filtered_data (t : List Row) (years : List Int) : List Row :=
  t.filter (fun r => r.order_purchase_year ∈ years)

/-- `data["order_purchase_year"].unique()`: the distinct years of the
cleaned table, in order of first occurrence.  Both the options and the
default of the sidebar multiselect. -/
def uniqueYears (t : List Row) : List Int :=
  (t.map Row.order_purchase_year).dedup

/-! ## KPI row -/

/-- `filtered_data["total_revenue"].sum()`. -/
def total_revenue (view : List Row) : ℚ :=
  (view.map Row.total_revenue).sum

/-- `filtered_data["order_id"].nunique()`. -/
def num_orders (view : List Row) : Nat :=
  ((view.map Row.order_id).dedup).length

/-- `total_revenue / num_orders if num_orders > 0 else 0`. -/
def average_order_value (view : List Row) : ℚ :=
  if 0 < num_orders view then total_revenue view / (num_orders view : ℚ) else 0

/-- `filtered_data["order_item_id"].count()`; after `astype(str)` the
column has no missing values, so `count()` is the number of rows. -/
def units_sold (view : List Row) : Nat :=
  (view.map Row.order_item_id).length

/-! ## Grouped aggregations

`groupby(key)` collects the distinct key values, sorted ascending (pandas
`sort=True` default), and aggregates the rows of each key group;
`sort_values(by=measure, ascending=False).head(10)` then reorders the
groups by descending measure and keeps at most ten. -/

/-- The grouping keys of `groupby`: distinct values, sorted ascending. -/
def groupKeys (l : List String) : List String :=
  List.insertionSort (· ≤ ·) l.dedup

/-- Descending comparison on the numeric measure of a grouped record. -/
def descNat (a b : String × Nat) : Prop := b.2 ≤ a.2

/-- Descending comparison on the rational measure of a grouped record. -/
def descRat (a b : String × ℚ) : Prop := b.2 ≤ a.2

instance : DecidableRel descNat := fun a b => inferInstanceAs (Decidable (b.2 ≤ a.2))

instance : DecidableRel descRat := fun a b => inferInstanceAs (Decidable (b.2 ≤ a.2))

instance : IsTotal (String × Nat) descNat := ⟨fun a b => le_total b.2 a.2⟩

instance : IsTotal (String × ℚ) descRat := ⟨fun a b => le_total b.2 a.2⟩

instance : IsTrans (String × Nat) descNat := ⟨fun _ _ _ h1 h2 => le_trans h2 h1⟩

instance : IsTrans (String × ℚ) descRat := ⟨fun _ _ _ h1 h2 => le_trans h2 h1⟩

/-- `groupby("product_category_name_english")["order_item_id"].count()`,
renamed to `units_sold`, sorted descending, `head(10)`. -/
def top_categories_units (view : List Row) : List (String × Nat) :=
  (List.insertionSort descNat
    ((groupKeys (view.map Row.product_category_name_english)).map fun k =>
      (k, units_sold (view.filter fun r => r.product_category_name_english = k)))).take 10

/-- `groupby("product_category_name_english")["total_revenue"].sum()`,
sorted descending, `head(10)`. -/
def top_categories_revenue (view : List Row) : List (String × ℚ) :=
  (List.insertionSort descRat
    ((groupKeys (view.map Row.product_category_name_english)).map fun k =>
      (k, total_revenue (view.filter fun r => r.product_category_name_english = k)))).take 10

/-- `groupby("customer_state")["total_revenue"].sum()`, sorted descending,
`head(10)`. -/
def top_states (view : List Row) : List (String × ℚ) :=
  (List.insertionSort descRat
    ((groupKeys (view.map Row.customer_state)).map fun k =>
      (k, total_revenue (view.filter fun r => r.customer_state = k)))).take 10

/-! ## Monthly trend

`filtered_data["year_month"] = filtered_data["order_purchase_timestamp"].dt.to_period("M")`
adds a column to the filtered view; `groupby("year_month")` then drops the
rows whose key is `NaT` (pandas default `dropna=True`), aggregates each
month group, and yields the groups in ascending key order. -/

/-- The month ordinal of a pandas monthly `Period`: months since year 0. -/
def ymOrd (d : DateTime) : Nat := 12 * d.year + (d.month - 1)

/-- The column assignment applied to one row: set `year_month` to the
monthly period of the purchase timestamp (`none`, modelling `NaT`, when the
timestamp itself is absent). -/
def stampYM (r : Row) : Row :=
  { r with year_month := r.order_purchase_timestamp.map ymOrd }

/-- The in-place column assignment
`filtered_data["year_month"] = ...dt.to_period("M")` over the whole view. -/
def add_year_month (view : List Row) : List Row :=
  view.map stampYM

/-- One aggregated record of the monthly trend result. -/
structure TrendRow where
  year_month : Nat
  total_revenue : ℚ
  order_count : Nat
deriving DecidableEq

/-- The rows of one `year_month` group. -/
def monthRows (view : List Row) (k : Nat) : List Row :=
  view.filter fun r => r.year_month = some k

/-- The grouping keys of `groupby("year_month")`: the distinct non-`NaT`
month values, in ascending order. -/
def monthKeys (view : List Row) : List Nat :=
  List.insertionSort (· ≤ ·) ((view.filterMap Row.year_month).dedup)

/-- `groupby("year_month").agg(total_revenue=("total_revenue", "sum"),
order_count=("order_id", "nunique")).reset_index()`. -/
def monthly_trend (view : List Row) : List TrendRow :=
  (monthKeys view).map fun k =>
    { year_month := k
      total_revenue := total_revenue (monthRows view k)
      order_count := num_orders (monthRows view k) }

/-- Strip the `year_month` column from a row (used to state which columns
the column assignment leaves unchanged). -/
def eraseYM (r : Row) : Row := { r with year_month := none }

/-! ## Concrete sample records used to instantiate the theorems -/

/-- A delivered raw record with a parseable purchase timestamp. -/
def exDelivered : RawRow :=
  { customer_zip_code := "1037", seller_zip_code := "42", order_status := "delivered",
    order_id := "o1", order_item_id := "1", customer_state := "SP",
    product_category_name_english := "toys", total_revenue := 100,
    order_purchase_timestamp := "2017-03-15 10:20:30", order_purchase_year := 2017 }

/-- A raw record whose status is not `delivered`. -/
def exShipped : RawRow :=
  { customer_zip_code := "7", order_status := "shipped", order_id := "o2",
    total_revenue := 3, order_purchase_timestamp := "2018-01-02 03:04:05",
    order_purchase_year := 2018 }

/-- A delivered raw record whose zip rendering has six characters. -/
def exLongZip : RawRow :=
  { customer_zip_code := "123456", order_status := "delivered", order_id := "o3" }

/-- A cleaned row with a present purchase timestamp. -/
def exRowTs : Row :=
  { order_id := "o1", order_item_id := "1", total_revenue := 5,
    order_purchase_timestamp := some ⟨2017, 3, 15, 10, 20, 30⟩,
    order_purchase_year := 2017 }

/-- A cleaned row whose purchase timestamp is absent (`NaT`). -/
def exRowNoTs : Row :=
  { order_id := "o2", order_item_id := "1", total_revenue := 7,
    order_purchase_timestamp := none, order_purchase_year := 2017 }

/-! ## Theorems -/

/-- Claim C1: after `preprocess_data`, every remaining row has
`order_status = "delivered"`; the output is exactly the delivered input
rows (each passed through the column transforms), so no delivered row is
dropped and no other row survives. -/
theorem preprocess_keeps_exactly_delivered (t : List RawRow) :
    (∀ r ∈ preprocess_data t, r.order_status = "delivered") ∧
      preprocess_data t =
        (t.filter fun raw => raw.order_status = "delivered").map cleanRow := by
  constructor
  · intro r hr
    have hmem := List.of_mem_filter hr
    simpa using hmem
  · unfold preprocess_data
    rw [List.filter_map]
    rfl

/-- Claim C1, instantiated on a concrete two-row table. -/
theorem preprocess_keeps_exactly_delivered_witness :
    (cleanRow exDelivered).order_status = "delivered" :=
  (preprocess_keeps_exactly_delivered [exDelivered, exShipped]).1
    (cleanRow exDelivered) (by decide)

/-- Claim C2: `average_order_value` is `total_revenue / num_orders` when
there is at least one distinct order, and `0` when there is none — the
guarded branch, not a division, handles the zero case. -/
theorem average_order_value_spec (view : List Row) :
    (num_orders view = 0 → average_order_value view = 0) ∧
      (0 < num_orders view →
        average_order_value view = total_revenue view / (num_orders view : ℚ)) := by
  constructor
  · intro h
    simp [average_order_value, h]
  · intro h
    simp [average_order_value, h]

/-- Claim C2, instantiated: the empty view has zero orders and average 0,
and a one-order view divides exactly. -/
theorem average_order_value_spec_witness :
    average_order_value ([] : List Row) = 0 ∧
      average_order_value [exRowTs] = total_revenue [exRowTs] / (num_orders [exRowTs] : ℚ) :=
  ⟨(average_order_value_spec []).1 (by decide),
    (average_order_value_spec [exRowTs]).2 (by decide)⟩

/-- Claim C3 fails as stated: a six-character zip value survives
preprocessing with six characters, because `zfill(5)` leaves strings of
five or more characters unchanged. -/
theorem zip_exactly_five_counterexample :
    ¬ (∀ r ∈ preprocess_data [exLongZip], r.customer_zip_code.length = 5) := by
  decide

/-- Claim C3 (amended): after preprocessing, each zip value is `zfill 5` of
the corresponding raw value, so its length is `max 5` the raw length —
exactly five characters whenever the raw value has at most five, unchanged
(and longer) otherwise. -/
theorem preprocess_zip_lengths (t : List RawRow) (r : Row)
    (hr : r ∈ preprocess_data t) :
    ∃ raw ∈ t,
      r.customer_zip_code = fixZip raw.customer_zip_code ∧
        r.seller_zip_code = fixZip raw.seller_zip_code ∧
        r.customer_zip_code.length = max 5 raw.customer_zip_code.length ∧
        r.seller_zip_code.length = max 5 raw.seller_zip_code.length := by
  have hmem := List.mem_filter.mp hr
  obtain ⟨raw, hraw, hclean⟩ := List.mem_map.mp hmem.1
  refine ⟨raw, hraw, ?_, ?_, ?_, ?_⟩ <;>
    simp [← hclean, cleanRow, fixZip, zfill_length]

/-- Claim C3 (amended), instantiated on the six-character zip record. -/
theorem preprocess_zip_lengths_witness :
    ∃ raw ∈ [exLongZip],
      (cleanRow exLongZip).customer_zip_code = fixZip raw.customer_zip_code ∧
        (cleanRow exLongZip).seller_zip_code = fixZip raw.seller_zip_code ∧
        (cleanRow exLongZip).customer_zip_code.length = max 5 raw.customer_zip_code.length ∧
        (cleanRow exLongZip).seller_zip_code.length = max 5 raw.seller_zip_code.length :=
  preprocess_zip_lengths [exLongZip] (cleanRow exLongZip) (by decide)

/-- Claim C9: filtering with the multiselect's default selection — the
distinct `order_purchase_year` values of the cleaned table — returns the
whole cleaned table. -/
theorem filter_default_selection_is_identity (t : List Row) :
    filtered_data t (uniqueYears t) = t := by
  unfold filtered_data uniqueYears
  rw [List.filter_eq_self]
  intro r hr
  simpa using List.mem_dedup.mpr (List.mem_map_of_mem Row.order_purchase_year hr)

/-- Claim C4 fails as stated: the monthly-trend step executes
`filtered_data["year_month"] = ...`, which modifies the filtered view — on
a one-row view with a parsed purchase timestamp, the view after the column
assignment differs from the view the Filter produced. -/
theorem filtered_view_readonly_counterexample :
    add_year_month (filtered_data (preprocess_data [exDelivered]) [2017]) ≠
      filtered_data (preprocess_data [exDelivered]) [2017] := by
  decide

/-- Claim C4 (amended): the KPI, top-10 and rendering steps are pure reads,
and the single mutation of the filtered view — the `year_month` column
assignment of the monthly-trend step — adds that column only: it neither
adds, removes nor reorders rows, and leaves every other column unchanged. -/
theorem add_year_month_frame (view : List Row) :
    (add_year_month view).map eraseYM = view.map eraseYM ∧
      (add_year_month view).length = view.length := by
  constructor
  · unfold add_year_month
    rw [List.map_map]
    rfl
  · unfold add_year_month
    rw [List.length_map]

/-- Claim C5: the Filter keeps exactly the rows whose
`order_purchase_year` is in the selected set (multiplicity included, order
preserved), and the empty selection yields the empty view, zero KPIs and
empty chart datasets rather than an error. -/
theorem filtered_data_spec (t : List Row) (years : List Int) :
    (filtered_data t years).Sublist t ∧
      (∀ r : Row,
        (filtered_data t years).count r =
          if r.order_purchase_year ∈ years then t.count r else 0) ∧
      filtered_data t [] = [] ∧
      total_revenue (filtered_data t []) = 0 ∧
      num_orders (filtered_data t []) = 0 ∧
      average_order_value (filtered_data t []) = 0 ∧
      units_sold (filtered_data t []) = 0 ∧
      top_categories_units (filtered_data t []) = [] ∧
      top_categories_revenue (filtered_data t []) = [] ∧
      top_states (filtered_data t []) = [] ∧
      monthly_trend (add_year_month (filtered_data t [])) = [] := by
  have hempty : filtered_data t [] = [] := by
    unfold filtered_data
    rw [List.filter_eq_nil_iff]
    intro r _
    simp
  refine ⟨List.filter_sublist t, ?_, hempty, ?_, ?_, ?_, ?_, ?_, ?_, ?_, ?_⟩ <;>
    try rw [hempty]
  · intro r
    split
    · rename_i hmemb
      exact List.count_filter (by simpa using hmemb)
    · rename_i hmemb
      rw [List.count_eq_zero]
      intro hmem
      exact hmemb (by simpa using (List.mem_filter.mp hmem).2)
  all_goals rfl

/-- Claim C5, instantiated on a concrete two-row table: the row of 2017 is
kept once, the row of 2018 is dropped. -/
theorem filtered_data_spec_witness :
    (filtered_data [exRowTs, exRowNoTs] [2017]).count exRowTs = [exRowTs, exRowNoTs].count exRowTs ∧
      total_revenue (filtered_data [exRowTs, exRowNoTs] []) = 0 := by
  have h := filtered_data_spec [exRowTs, exRowNoTs] [2017]
  refine ⟨?_, h.2.2.2.1⟩
  have hc := h.2.1 exRowTs
  rw [hc]
  decide

/-- Sorting by `descNat` and taking ten leaves at most ten records, in
descending measure order. -/
theorem take_ten_desc_nat (l : List (String × Nat)) :
    ((List.insertionSort descNat l).take 10).length ≤ 10 ∧
      (((List.insertionSort descNat l).take 10).map Prod.snd).Sorted (· ≥ ·) := by
  constructor
  · exact List.length_take_le 10 _
  · have hsorted : (List.insertionSort descNat l).Sorted descNat :=
      List.sorted_insertionSort descNat l
    have htake : ((List.insertionSort descNat l).take 10).Sorted descNat :=
      List.Pairwise.sublist (List.take_sublist 10 _) hsorted
    exact List.pairwise_map.mpr htake

/-- Sorting by `descRat` and taking ten leaves at most ten records, in
descending measure order. -/
theorem take_ten_desc_rat (l : List (String × ℚ)) :
    ((List.insertionSort descRat l).take 10).length ≤ 10 ∧
      (((List.insertionSort descRat l).take 10).map Prod.snd).Sorted (· ≥ ·) := by
  constructor
  · exact List.length_take_le 10 _
  · have hsorted : (List.insertionSort descRat l).Sorted descRat :=
      List.sorted_insertionSort descRat l
    have htake : ((List.insertionSort descRat l).take 10).Sorted descRat :=
      List.Pairwise.sublist (List.take_sublist 10 _) hsorted
    exact List.pairwise_map.mpr htake

/-- Claim C7: each of the three top-10 results has at most ten rows and is
sorted in descending order of its measure. -/
theorem top_tens_spec (view : List Row) :
    ((top_categories_units view).length ≤ 10 ∧
        ((top_categories_units view).map Prod.snd).Sorted (· ≥ ·)) ∧
      ((top_categories_revenue view).length ≤ 10 ∧
        ((top_categories_revenue view).map Prod.snd).Sorted (· ≥ ·)) ∧
      ((top_states view).length ≤ 10 ∧
        ((top_states view).map Prod.snd).Sorted (· ≥ ·)) :=
  ⟨take_ten_desc_nat _, take_ten_desc_rat _, take_ten_desc_rat _⟩

/-- Every date field of a preprocessed row is the coercing parse of the
corresponding raw text. -/
theorem preprocess_dates_are_parsed (t : List RawRow) (r : Row)
    (hr : r ∈ preprocess_data t) :
    ∃ raw ∈ t,
      r.order_purchase_timestamp = parseDateTime raw.order_purchase_timestamp ∧
        r.order_approved_at = parseDateTime raw.order_approved_at ∧
        r.order_delivered_carrier_date = parseDateTime raw.order_delivered_carrier_date ∧
        r.order_delivered_customer_date = parseDateTime raw.order_delivered_customer_date ∧
        r.order_estimated_delivery_date = parseDateTime raw.order_estimated_delivery_date := by
  have hmem := List.mem_filter.mp hr
  obtain ⟨raw, hraw, hclean⟩ := List.mem_map.mp hmem.1
  exact ⟨raw, hraw, by rw [← hclean]; exact ⟨rfl, rfl, rfl, rfl, rfl⟩⟩

/-- Claim C8: date parsing during preprocessing is total — each of the five
date fields of every preprocessed row is either absent (the coercion result
of an unparseable cell, modelling `NaT`) or a calendar-valid datetime;
no input raises. -/
theorem preprocess_dates_valid_or_absent (t : List RawRow) (r : Row)
    (hr : r ∈ preprocess_data t) :
    (∀ d, r.order_purchase_timestamp = some d → ValidDateTime d) ∧
      (∀ d, r.order_approved_at = some d → ValidDateTime d) ∧
      (∀ d, r.order_delivered_carrier_date = some d → ValidDateTime d) ∧
      (∀ d, r.order_delivered_customer_date = some d → ValidDateTime d) ∧
      (∀ d, r.order_estimated_delivery_date = some d → ValidDateTime d) := by
  obtain ⟨raw, -, h1, h2, h3, h4, h5⟩ := preprocess_dates_are_parsed t r hr
  refine ⟨?_, ?_, ?_, ?_, ?_⟩ <;> intro d hd
  · exact parseDateTime_valid _ d (h1 ▸ hd)
  · exact parseDateTime_valid _ d (h2 ▸ hd)
  · exact parseDateTime_valid _ d (h3 ▸ hd)
  · exact parseDateTime_valid _ d (h4 ▸ hd)
  · exact parseDateTime_valid _ d (h5 ▸ hd)

/-- Claim C8, instantiated: the parsed purchase timestamp of the concrete
delivered record is calendar-valid. -/
theorem preprocess_dates_valid_or_absent_witness :
    ValidDateTime ⟨2017, 3, 15, 10, 20, 30⟩ :=
  (preprocess_dates_valid_or_absent [exDelivered] (cleanRow exDelivered) (by decide)).1
    ⟨2017, 3, 15, 10, 20, 30⟩ (by decide)

/-! ### Helper lemmas about the monthly-trend step -/

theorem filterMap_add_year_month (view : List Row) :
    (add_year_month view).filterMap Row.year_month =
      view.filterMap fun r => r.order_purchase_timestamp.map ymOrd := by
  unfold add_year_month
  rw [List.filterMap_map]
  rfl

theorem monthKeys_add_year_month (view : List Row) :
    monthKeys (add_year_month view) =
      List.insertionSort (· ≤ ·)
        ((view.filterMap fun r => r.order_purchase_timestamp.map ymOrd).dedup) := by
  unfold monthKeys
  rw [filterMap_add_year_month]

theorem monthRows_add_year_month (view : List Row) (k : Nat) :
    monthRows (add_year_month view) k =
      (view.filter fun r => r.order_purchase_timestamp.map ymOrd = some k).map stampYM := by
  unfold monthRows add_year_month
  rw [List.filter_map]
  rfl

theorem total_revenue_map_stampYM (l : List Row) :
    total_revenue (l.map stampYM) = total_revenue l := by
  unfold total_revenue
  rw [List.map_map]
  rfl

theorem num_orders_map_stampYM (l : List Row) :
    num_orders (l.map stampYM) = num_orders l := by
  unfold num_orders
  rw [List.map_map]
  rfl

theorem trend_keys_eq (view : List Row) :
    (monthly_trend view).map TrendRow.year_month = monthKeys view := by
  unfold monthly_trend
  rw [List.map_map]
  exact List.map_id _

/-- Claim C6: the monthly trend has one row per distinct month present
among the parsed purchase timestamps of the view — no more, no fewer —
each row carrying the revenue sum and the distinct-order count of its
month, and the rows appear in ascending month order. -/
theorem monthly_trend_spec (view : List Row) :
    (∀ k : Nat,
        (∃ trr ∈ monthly_trend (add_year_month view), trr.year_month = k) ↔
          ∃ r ∈ view, r.order_purchase_timestamp.map ymOrd = some k) ∧
      ((monthly_trend (add_year_month view)).map TrendRow.year_month).Nodup ∧
      ((monthly_trend (add_year_month view)).map TrendRow.year_month).Sorted (· ≤ ·) ∧
      (∀ trr ∈ monthly_trend (add_year_month view),
        trr.total_revenue =
            total_revenue
              (view.filter fun r =>
                r.order_purchase_timestamp.map ymOrd = some trr.year_month) ∧
          trr.order_count =
            num_orders
              (view.filter fun r =>
                r.order_purchase_timestamp.map ymOrd = some trr.year_month)) := by
  refine ⟨?_, ?_, ?_, ?_⟩
  · intro k
    rw [show (∃ trr ∈ monthly_trend (add_year_month view), trr.year_month = k) ↔
          k ∈ (monthly_trend (add_year_month view)).map TrendRow.year_month from
        (List.mem_map).symm]
    rw [trend_keys_eq, monthKeys_add_year_month]
    rw [(List.perm_insertionSort _ _).mem_iff, List.mem_dedup, List.mem_filterMap]
  · rw [trend_keys_eq, monthKeys_add_year_month]
    exact ((List.perm_insertionSort _ _).nodup_iff).mpr (List.nodup_dedup _)
  · rw [trend_keys_eq]
    unfold monthKeys
    exact List.sorted_insertionSort _ _
  · intro trr htrr
    unfold monthly_trend at htrr
    obtain ⟨k, -, rfl⟩ := List.mem_map.mp htrr
    constructor
    · show total_revenue (monthRows (add_year_month view) k) = _
      rw [monthRows_add_year_month, total_revenue_map_stampYM]
    · show num_orders (monthRows (add_year_month view) k) = _
      rw [monthRows_add_year_month, num_orders_map_stampYM]

/-- Claim C6, instantiated: the concrete one-month view has a trend row
for March 2017, so some view row carries that month. -/
theorem monthly_trend_spec_witness :
    ∃ r ∈ [exRowTs, exRowNoTs],
      r.order_purchase_timestamp.map ymOrd = some 24206 :=
  ((monthly_trend_spec [exRowTs, exRowNoTs]).1 24206).mp (by decide)

/-! ### Helper lemmas about rows with an absent purchase timestamp -/

theorem total_revenue_split (l : List Row) :
    total_revenue l =
      total_revenue (l.filter fun r => r.order_purchase_timestamp.isSome) +
        total_revenue (l.filter fun r => r.order_purchase_timestamp.isNone) := by
  induction l with
  | nil => simp [total_revenue]
  | cons a l ih =>
    cases h : a.order_purchase_timestamp <;>
      simp [total_revenue, List.filter_cons, h] at ih ⊢ <;> rw [ih] <;> ring

theorem units_sold_split (l : List Row) :
    units_sold l =
      units_sold (l.filter fun r => r.order_purchase_timestamp.isSome) +
        units_sold (l.filter fun r => r.order_purchase_timestamp.isNone) := by
  induction l with
  | nil => simp [units_sold]
  | cons a l ih =>
    cases h : a.order_purchase_timestamp <;>
      simp [units_sold, List.filter_cons, h] at ih ⊢ <;> omega

theorem filterMap_ym_restrict (view : List Row) :
    ((view.filter fun r => r.order_purchase_timestamp.isSome).filterMap
        fun r => r.order_purchase_timestamp.map ymOrd) =
      view.filterMap fun r => r.order_purchase_timestamp.map ymOrd := by
  induction view with
  | nil => rfl
  | cons a l ih =>
    cases h : a.order_purchase_timestamp <;>
      simp [List.filter_cons, List.filterMap_cons, h, ih]

theorem filter_ym_restrict (view : List Row) (k : Nat) :
    ((view.filter fun r => r.order_purchase_timestamp.isSome).filter
        fun r => r.order_purchase_timestamp.map ymOrd = some k) =
      view.filter fun r => r.order_purchase_timestamp.map ymOrd = some k := by
  rw [List.filter_filter]
  apply List.filter_congr
  intro r _
  cases h : r.order_purchase_timestamp <;> simp [h]

theorem monthly_trend_restrict (view : List Row) :
    monthly_trend (add_year_month view) =
      monthly_trend
        (add_year_month (view.filter fun r => r.order_purchase_timestamp.isSome)) := by
  unfold monthly_trend
  have hkeys :
      monthKeys (add_year_month view) =
        monthKeys (add_year_month (view.filter fun r => r.order_purchase_timestamp.isSome)) := by
    rw [monthKeys_add_year_month, monthKeys_add_year_month, filterMap_ym_restrict]
  rw [← hkeys]
  apply List.map_congr_left
  intro k _
  have hrev :
      total_revenue (monthRows (add_year_month view) k) =
        total_revenue
          (monthRows (add_year_month (view.filter fun r => r.order_purchase_timestamp.isSome)) k) := by
    rw [monthRows_add_year_month, monthRows_add_year_month,
      total_revenue_map_stampYM, total_revenue_map_stampYM, filter_ym_restrict]
  have hord :
      num_orders (monthRows (add_year_month view) k) =
        num_orders
          (monthRows (add_year_month (view.filter fun r => r.order_purchase_timestamp.isSome)) k) := by
    rw [monthRows_add_year_month, monthRows_add_year_month,
      num_orders_map_stampYM, num_orders_map_stampYM, filter_ym_restrict]
  rw [hrev, hord]

/-- Claim C10: rows whose purchase timestamp is absent still enter every
KPI — the revenue sum, the row count behind `units_sold`, and the
distinct-order pool behind `num_orders` — yet the monthly trend is exactly
the trend of the present-timestamp rows alone, so the KPI revenue total
can strictly exceed the sum of the trend's revenue column. -/
theorem absent_timestamp_rows_spec (view : List Row) :
    total_revenue view =
        total_revenue (view.filter fun r => r.order_purchase_timestamp.isSome) +
          total_revenue (view.filter fun r => r.order_purchase_timestamp.isNone) ∧
      units_sold view =
        units_sold (view.filter fun r => r.order_purchase_timestamp.isSome) +
          units_sold (view.filter fun r => r.order_purchase_timestamp.isNone) ∧
      (∀ r ∈ view, r.order_id ∈ (view.map Row.order_id).dedup) ∧
      monthly_trend (add_year_month view) =
        monthly_trend
          (add_year_month (view.filter fun r => r.order_purchase_timestamp.isSome)) ∧
      ∃ v : List Row,
        ((monthly_trend (add_year_month v)).map TrendRow.total_revenue).sum <
          total_revenue v := by
  refine ⟨total_revenue_split view, units_sold_split view, ?_,
    monthly_trend_restrict view, ⟨[exRowTs, exRowNoTs], ?_⟩⟩
  · intro r hr
    exact List.mem_dedup.mpr (List.mem_map_of_mem Row.order_id hr)
  · simp [monthly_trend, monthKeys, monthRows, add_year_month, stampYM, total_revenue,
      num_orders, exRowTs, exRowNoTs, ymOrd, List.insertionSort, List.orderedInsert]

/-- Claim C10, instantiated: the absent-timestamp row's order id is in the
distinct-order pool of the concrete view. -/
theorem absent_timestamp_rows_spec_witness :
    exRowNoTs.order_id ∈ ([exRowTs, exRowNoTs].map Row.order_id).dedup :=
  (absent_timestamp_rows_spec [exRowTs, exRowNoTs]).2.2.1 exRowNoTs (by decide)

end Dashboard
